import Mathlib

/-!
Shallow embedding of the AllNewsAPI Go SDK (`client.go`) and proofs about it.

The Go code is a thin HTTP client: it builds a URL query from a
`SearchOptions` struct, issues a GET request, and decodes the JSON body into
a `SearchResponse`.  We embed:

* the data model (`SearchOptions`, `Article`, `SearchResponse`, `Client`);
* the parameter encoders inlined in `Client.Search` (client.go lines
  108-194) and `Client.Headlines` (lines 226-312), duplicated in the source
  and therefore duplicated here as `searchParams` and `headlinesParams`;
* `url.Values.Encode` (key-sorted, query-escaped) as `encodeQuery`;
* the JSON decoding performed by `json.NewDecoder(resp.Body).Decode` for
  the `SearchResponse` shape, as a small JSON parser plus a struct decoder
  following `encoding/json` semantics (first value of the stream, unknown
  fields ignored, `null` leaves a field at its zero value, numeric literals
  for `int` fields must be plain integers);
* the request/response executors `Client.Search` / `Client.Headlines`,
  with the HTTP transport abstracted as an oracle `net : String → HTTPOutcome`.
-/

/-- Model of Go `time.Time` restricted to what the SDK uses: calendar
fields plus a UTC offset in minutes (`time.Time.Format(time.RFC3339)` and
RFC3339 parsing only look at these). -/
structure GoTime where
  year : Nat
  month : Nat
  day : Nat
  hour : Nat
  minute : Nat
  second : Nat
  offsetMinutes : Int
  deriving DecidableEq

/-- Left-pad a decimal representation with zeros to width `w`. -/
def padZero (w : Nat) (n : Nat) : String :=
  let s := toString n
  (String.mk (List.replicate (w - s.length) '0')) ++ s

/-- The `Z07:00` part of Go's RFC3339 layout: `Z` for UTC, otherwise a
signed `hh:mm` offset. -/
def formatOffset (offsetMinutes : Int) : String :=
  if offsetMinutes = 0 then "Z"
  else
    let sign := if offsetMinutes < 0 then "-" else "+"
    let m := offsetMinutes.natAbs
    sign ++ padZero 2 (m / 60) ++ ":" ++ padZero 2 (m % 60)

/-- Go `t.Format(time.RFC3339)`, layout `2006-01-02T15:04:05Z07:00`. -/
def formatRFC3339 (t : GoTime) : String :=
  padZero 4 t.year ++ "-" ++ padZero 2 t.month ++ "-" ++ padZero 2 t.day ++
    "T" ++ padZero 2 t.hour ++ ":" ++ padZero 2 t.minute ++ ":" ++
    padZero 2 t.second ++ formatOffset t.offsetMinutes

/-- The dynamic value stored in the `interface{}` fields `StartDate` /
`EndDate`: a Go `string`, a Go `time.Time`, or a value of any other
dynamic type (the `default:` arm of the type switch). -/
inductive DateInput where
  | str (s : String)
  | time (t : GoTime)
  | other
  deriving DecidableEq

/-- `SearchOptions` (client.go lines 89-104).  Go `nil` interface / nil
pointer fields become `Option.none`; Go `int` becomes `Int`. -/
structure SearchOptions where
  query : String
  startDate : Option DateInput
  endDate : Option DateInput
  content : Option Bool
  lang : List String
  country : List String
  region : List String
  category : List String
  max : Int
  attributes : List String
  page : Int
  sortBy : String
  publisher : List String
  format : String
  deriving DecidableEq

/-- The all-zero `SearchOptions` value (`allnewsapi.SearchOptions{}`). -/
def SearchOptions.zero : SearchOptions :=
  ⟨"", none, none, none, [], [], [], [], 0, [], 0, "", [], ""⟩

/-- The nested `source` struct of `Article` (client.go lines 35-38). -/
structure ArticleSource where
  name : String
  url : String
  deriving DecidableEq

/-- `Article` (client.go lines 23-39). -/
structure Article where
  title : String
  description : String
  category : String
  content : String
  country : String
  region : String
  lang : String
  sentiment : String
  url : String
  image : String
  publishedAt : Option GoTime
  source : ArticleSource
  deriving DecidableEq

/-- The zero `Article` value produced by Go before decoding fills fields.
`publishedAt` is modelled as `Option GoTime`, `none` standing for the zero
`time.Time`. -/
def Article.zero : Article :=
  ⟨"", "", "", "", "", "", "", "", "", "", none, ⟨"", ""⟩⟩

/-- `SearchResponse` (client.go lines 42-47).  `NextPage *int` becomes
`Option Int`. -/
structure SearchResponse where
  totalArticles : Int
  currentPage : Int
  nextPage : Option Int
  articles : List Article
  deriving DecidableEq

/-- The zero `SearchResponse` that `var searchResponse SearchResponse`
declares before decoding. -/
def SearchResponse.zero : SearchResponse := ⟨0, 0, none, []⟩

/-- `Client` (client.go lines 16-20): the API key and base URL; the
embedded `http.Client` is modelled separately as the network oracle passed
to each call. -/
structure Client where
  apiKey : String
  baseURL : String

/-- The SDK's error values, tagged by the site that produces them.
`optionError` is `errors.New("...Date must be string or time.Time")`;
`apiError` is `fmt.Errorf("API error (status %d): %s", ...)`;
`parseError` is `fmt.Errorf("error parsing response: %w", err)` carrying
the cause; `transportError` is `fmt.Errorf("error making request: %w", err)`. -/
inductive SDKError where
  | optionError (msg : String)
  | transportError (msg : String)
  | apiError (status : Nat) (body : String)
  | parseError (cause : String)
  deriving DecidableEq

/-- One parameter block of `url.Values`: `params.Add(k, o.Query)` guarded by
`o.Query != ""` (and likewise `sortby` / `format`). -/
def strParam (k : String) (v : String) : List (String × String) :=
  if v ≠ "" then [(k, v)] else []

/-- Encodes `params.Add(k, strings.Join(xs, ","))` guarded by `len(xs) > 0`. -/
def listParam (k : String) (xs : List String) : List (String × String) :=
  if xs.length > 0 then [(k, String.intercalate "," xs)] else []

/-- Encodes `params.Add(k, fmt.Sprintf("%d", n))` guarded by `n > 0`. -/
def intParam (k : String) (n : Int) : List (String × String) :=
  if n > 0 then [(k, toString n)] else []

/-- The tri-state `content` handling (client.go lines 148-154). -/
def contentParam (c : Option Bool) : List (String × String) :=
  match c with
  | none => []
  | some true => [("content", "true")]
  | some false => [("content", "false")]

/-- The `startDate` / `endDate` type switch (client.go lines 120-131 and
134-145): a string passes through, a `time.Time` is formatted as RFC3339,
any other dynamic type hits the `default:` arm and aborts the call. -/
def dateParam (k : String) (v : Option DateInput) (errMsg : String) :
    Except SDKError (List (String × String)) :=
  match v with
  | none => .ok []
  | some (.str s) => .ok [(k, s)]
  | some (.time t) => .ok [(k, formatRFC3339 t)]
  | some .other => .error (.optionError errMsg)

/-- The query parameters built by `Client.Search` (client.go lines
108-191), in `params.Add` order; `.error` is the early `return nil, err`
taken before any network activity. -/
def searchParams (apiKey : String) (options : Option SearchOptions) :
    Except SDKError (List (String × String)) :=
  match options with
  | none => .ok [("apikey", apiKey)]
  | some o =>
    match dateParam "startDate" o.startDate "startDate must be string or time.Time" with
    | .error e => .error e
    | .ok sd =>
      match dateParam "endDate" o.endDate "endDate must be string or time.Time" with
      | .error e => .error e
      | .ok ed =>
        .ok ([("apikey", apiKey)] ++ strParam "q" o.query ++ sd ++ ed ++
          contentParam o.content ++ listParam "lang" o.lang ++
          listParam "country" o.country ++ listParam "region" o.region ++
          listParam "category" o.category ++ listParam "attributes" o.attributes ++
          listParam "publisher" o.publisher ++ intParam "max" o.max ++
          intParam "page" o.page ++ strParam "sortby" o.sortBy ++
          strParam "format" o.format)

/-- The query parameters built by `Client.Headlines` (client.go lines
226-309); the source duplicates the `Search` logic verbatim, so this
definition is a verbatim duplicate of `searchParams`. -/
def headlinesParams (apiKey : String) (options : Option SearchOptions) :
    Except SDKError (List (String × String)) :=
  match options with
  | none => .ok [("apikey", apiKey)]
  | some o =>
    match dateParam "startDate" o.startDate "startDate must be string or time.Time" with
    | .error e => .error e
    | .ok sd =>
      match dateParam "endDate" o.endDate "endDate must be string or time.Time" with
      | .error e => .error e
      | .ok ed =>
        .ok ([("apikey", apiKey)] ++ strParam "q" o.query ++ sd ++ ed ++
          contentParam o.content ++ listParam "lang" o.lang ++
          listParam "country" o.country ++ listParam "region" o.region ++
          listParam "category" o.category ++ listParam "attributes" o.attributes ++
          listParam "publisher" o.publisher ++ intParam "max" o.max ++
          intParam "page" o.page ++ strParam "sortby" o.sortBy ++
          strParam "format" o.format)

/-- First-match lookup of a key among the built parameters (each key is
added at most once by the SDK, so this is the parameter's value). -/
def lookupParam (ps : List (String × String)) (k : String) : Option String :=
  match ps with
  | [] => none
  | (k', v) :: rest => if k' = k then some v else lookupParam rest k

/-- An uppercase hexadecimal digit, as `"%02X"` produces. -/
def hexDigitU (n : Nat) : Char :=
  if n < 10 then Char.ofNat (48 + n) else Char.ofNat (55 + n)

/-- Whether `url.QueryEscape` leaves the byte unescaped: ASCII
alphanumerics and `-` `_` `.` `~`. -/
def isUnreservedByte (n : Nat) : Bool :=
  (48 ≤ n && n ≤ 57) || (65 ≤ n && n ≤ 90) || (97 ≤ n && n ≤ 122) ||
    n = 45 || n = 95 || n = 46 || n = 126

/-- Go `url.QueryEscape`: unreserved bytes pass, space becomes `+`, every
other byte becomes `%XX`. -/
def queryEscape (s : String) : String :=
  String.join (s.toUTF8.toList.map fun b =>
    let n := b.toNat
    if isUnreservedByte n then String.singleton (Char.ofNat n)
    else if n = 32 then "+"
    else String.mk ['%', hexDigitU (n / 16), hexDigitU (n % 16)])

/-- Insertion into a key-sorted parameter list, for `Encode`'s
`sort.Strings(keys)`. -/
def insertByKey (p : String × String) : List (String × String) → List (String × String)
  | [] => [p]
  | q :: rest => if p.1 ≤ q.1 then p :: q :: rest else q :: insertByKey p rest

/-- Sort parameters by key, as `url.Values.Encode` sorts its keys. -/
def sortByKey : List (String × String) → List (String × String)
  | [] => []
  | p :: rest => insertByKey p (sortByKey rest)

/-- Go `url.Values.Encode()`: keys sorted, each pair rendered
`escape(k)=escape(v)`, joined with `&`. -/
def encodeQuery (ps : List (String × String)) : String :=
  String.intercalate "&"
    ((sortByKey ps).map fun p => queryEscape p.1 ++ "=" ++ queryEscape p.2)

/-- An HTTP response as the SDK observes it: the status code and the body
stream; `body = none` models a body whose read fails (`io.ReadAll` /
the JSON decoder return an error for it). -/
structure HTTPResponse where
  statusCode : Nat
  body : Option String

/-- Outcome of `c.httpClient.Do(req)`: a transport-level failure or a
response. -/
inductive HTTPOutcome where
  | failure (msg : String)
  | response (r : HTTPResponse)

/-- A JSON value as `encoding/json` tokenizes it; a number keeps its
source literal, since Go decodes a number into an `int` field by running
`strconv.ParseInt` on that literal. -/
inductive Json where
  | null
  | bool (b : Bool)
  | num (lit : String)
  | str (s : String)
  | arr (xs : List Json)
  | obj (fields : List (String × Json))

/-- JSON insignificant whitespace: space, tab, LF, CR. -/
def skipWs : List Char → List Char
  | c :: rest =>
    if c = ' ' ∨ c.toNat = 9 ∨ c.toNat = 10 ∨ c.toNat = 13 then skipWs rest
    else c :: rest
  | [] => []

/-- ASCII decimal digit test. -/
def isJsonDigit (c : Char) : Bool := 48 ≤ c.toNat && c.toNat ≤ 57

/-- Split a leading run of decimal digits. -/
def takeDigits : List Char → (List Char × List Char)
  | [] => ([], [])
  | c :: rest =>
    if isJsonDigit c then
      let (ds, r) := takeDigits rest
      (c :: ds, r)
    else ([], c :: rest)

/-- Value of a hex digit, if the character is one. -/
def hexVal (c : Char) : Option Nat :=
  let n := c.toNat
  if 48 ≤ n ∧ n ≤ 57 then some (n - 48)
  else if 65 ≤ n ∧ n ≤ 70 then some (n - 55)
  else if 97 ≤ n ∧ n ≤ 102 then some (n - 87)
  else none

/-- The single-character JSON string escapes. -/
def escChar (c : Char) : Option Char :=
  if c = '"' then some '"'
  else if c = '\\' then some '\\'
  else if c = '/' then some '/'
  else if c = 'b' then some (Char.ofNat 8)
  else if c = 'f' then some (Char.ofNat 12)
  else if c = 'n' then some (Char.ofNat 10)
  else if c = 'r' then some (Char.ofNat 13)
  else if c = 't' then some (Char.ofNat 9)
  else none

/-- Body of a JSON string after the opening quote: plain characters,
escapes and `\uXXXX`; an unescaped control character or a malformed escape
is a syntax error, as in `encoding/json`. -/
def parseStringBody : List Char → Option (String × List Char)
  | [] => none
  | '"' :: rest => some ("", rest)
  | '\\' :: 'u' :: h1 :: h2 :: h3 :: h4 :: rest =>
    match hexVal h1, hexVal h2, hexVal h3, hexVal h4 with
    | some a, some b, some c, some d =>
      match parseStringBody rest with
      | some (s, r) =>
        some (String.singleton (Char.ofNat (a * 4096 + b * 256 + c * 16 + d)) ++ s, r)
      | none => none
    | _, _, _, _ => none
  | '\\' :: e :: rest =>
    match escChar e with
    | some c =>
      match parseStringBody rest with
      | some (s, r) => some (String.singleton c ++ s, r)
      | none => none
    | none => none
  | c :: rest =>
    if c.toNat < 32 then none
    else
      match parseStringBody rest with
      | some (s, r) => some (String.singleton c ++ s, r)
      | none => none

/-- Optional fraction part of a JSON number (consumed but kept in the
literal by the caller via its length). -/
def parseFrac : List Char → Option (String × List Char)
  | '.' :: rest =>
    let (ds, r) := takeDigits rest
    if ds.isEmpty then none else some ("." ++ String.mk ds, r)
  | cs => some ("", cs)

/-- Optional exponent part of a JSON number. -/
def parseExp : List Char → Option (String × List Char)
  | c :: rest =>
    if c = 'e' ∨ c = 'E' then
      let (sgn, rest2) :=
        match rest with
        | '+' :: r => ("+", r)
        | '-' :: r => ("-", r)
        | _ => ("", rest)
      let (ds, r) := takeDigits rest2
      if ds.isEmpty then none else some (String.singleton c ++ sgn ++ String.mk ds, r)
    else some ("", c :: rest)
  | [] => some ("", [])

/-- A JSON number literal: optional minus, integer part without leading
zeros, optional fraction and exponent; returns the literal text. -/
def parseNumberLit (cs : List Char) : Option (String × List Char) :=
  let (sign, cs1) :=
    match cs with
    | '-' :: r => ("-", r)
    | _ => ("", cs)
  let intPart : Option (String × List Char) :=
    match cs1 with
    | '0' :: r => some ("0", r)
    | c :: r =>
      if isJsonDigit c then
        let (ds, r2) := takeDigits r
        some (String.singleton c ++ String.mk ds, r2)
      else none
    | [] => none
  match intPart with
  | none => none
  | some (ip, cs2) =>
    match parseFrac cs2 with
    | none => none
    | some (fp, cs3) =>
      match parseExp cs3 with
      | none => none
      | some (ep, cs4) => some (sign ++ ip ++ fp ++ ep, cs4)

mutual

/-- One JSON value, fuelled recursive descent (`fuel` bounds nesting; the
top-level caller supplies more fuel than the input length, which always
suffices). -/
def parseValue : Nat → List Char → Option (Json × List Char)
  | 0, _ => none
  | Nat.succ fuel, cs =>
    match skipWs cs with
    | 'n' :: 'u' :: 'l' :: 'l' :: rest => some (Json.null, rest)
    | 't' :: 'r' :: 'u' :: 'e' :: rest => some (Json.bool true, rest)
    | 'f' :: 'a' :: 'l' :: 's' :: 'e' :: rest => some (Json.bool false, rest)
    | '"' :: rest =>
      match parseStringBody rest with
      | some (s, r) => some (Json.str s, r)
      | none => none
    | '[' :: rest =>
      match skipWs rest with
      | ']' :: rest2 => some (Json.arr [], rest2)
      | rest2 =>
        match parseItems fuel rest2 with
        | some (xs, r) => some (Json.arr xs, r)
        | none => none
    | '\x7b' :: rest =>
      match skipWs rest with
      | '\x7d' :: rest2 => some (Json.obj [], rest2)
      | rest2 =>
        match parseFields fuel rest2 with
        | some (fs, r) => some (Json.obj fs, r)
        | none => none
    | c :: rest =>
      if c = '-' ∨ isJsonDigit c then
        match parseNumberLit (c :: rest) with
        | some (lit, r) => some (Json.num lit, r)
        | none => none
      else none
    | [] => none

/-- Comma-separated array items up to the closing bracket. -/
def parseItems : Nat → List Char → Option (List Json × List Char)
  | 0, _ => none
  | Nat.succ fuel, cs =>
    match parseValue fuel cs with
    | none => none
    | some (v, rest) =>
      match skipWs rest with
      | ',' :: rest2 =>
        match parseItems fuel rest2 with
        | some (xs, r) => some (v :: xs, r)
        | none => none
      | ']' :: rest2 => some ([v], rest2)
      | _ => none

/-- Comma-separated object members up to the closing brace. -/
def parseFields : Nat → List Char → Option (List (String × Json) × List Char)
  | 0, _ => none
  | Nat.succ fuel, cs =>
    match skipWs cs with
    | '"' :: rest =>
      match parseStringBody rest with
      | none => none
      | some (k, rest2) =>
        match skipWs rest2 with
        | ':' :: rest3 =>
          match parseValue fuel rest3 with
          | none => none
          | some (v, rest4) =>
            match skipWs rest4 with
            | ',' :: rest5 =>
              match parseFields fuel rest5 with
              | some (fs, r) => some ((k, v) :: fs, r)
              | none => none
            | '\x7d' :: rest5 => some ([(k, v)], rest5)
            | _ => none
        | _ => none
    | _ => none

end

/-- `json.Decoder.Decode` reads the first JSON value of the stream and
leaves anything after it unread (trailing data is not an error); an empty
or malformed stream is a decode error. -/
def parseJson (s : String) : Option Json :=
  let cs := s.toList
  match parseValue (cs.length + 1) cs with
  | some (v, _) => some v
  | none => none

/-- Digits to a natural number. -/
def digitsToNat (ds : List Char) : Nat :=
  ds.foldl (fun acc c => acc * 10 + (c.toNat - 48)) 0

/-- `strconv.ParseInt` applied to a JSON number literal, as `encoding/json`
does for an `int` target: only an optional minus followed by digits is
accepted (`2.0` and `2e3` are type errors). -/
def parseIntLit (lit : String) : Option Int :=
  match lit.toList with
  | '-' :: ds =>
    if ds ≠ [] ∧ ds.all isJsonDigit then some (-(digitsToNat ds : Int)) else none
  | ds =>
    if ds ≠ [] ∧ ds.all isJsonDigit then some ((digitsToNat ds : Int)) else none

/-- Gregorian leap-year rule, as `time.Parse` validates dates. -/
def isLeapYear (y : Nat) : Bool :=
  (y % 4 = 0 && y % 100 ≠ 0) || y % 400 = 0

/-- Days in a month, for `time.Parse`'s day-of-month range check. -/
def daysInMonth (y m : Nat) : Nat :=
  if m = 2 then (if isLeapYear y then 29 else 28)
  else if m = 4 ∨ m = 6 ∨ m = 9 ∨ m = 11 then 30
  else 31

/-- Decimal value of two ASCII digits. -/
def twoDigits (a b : Char) : Nat := (a.toNat - 48) * 10 + (b.toNat - 48)

/-- Optional fractional seconds, accepted (and discarded) by `time.Parse`
right after the seconds field. -/
def parseFracSeconds : List Char → Option (List Char)
  | '.' :: r =>
    let (ds, r2) := takeDigits r
    if ds.isEmpty then none else some r2
  | cs => some cs

/-- The `Z07:00` offset at the end of an RFC3339 timestamp. -/
def parseOffsetPart : List Char → Option Int
  | ['Z'] => some 0
  | [sgn, o1, o2, ':', o3, o4] =>
    if (sgn = '+' ∨ sgn = '-') ∧
        isJsonDigit o1 ∧ isJsonDigit o2 ∧ isJsonDigit o3 ∧ isJsonDigit o4 then
      let oh := twoDigits o1 o2
      let om := twoDigits o3 o4
      if oh ≤ 23 ∧ om ≤ 59 then
        some (if sgn = '-' then -((oh * 60 + om : Nat) : Int) else ((oh * 60 + om : Nat) : Int))
      else none
    else none
  | _ => none

/-- `time.Parse(time.RFC3339, s)` as `time.Time.UnmarshalJSON` runs it:
`YYYY-MM-DDThh:mm:ss` with optional fractional seconds and a `Z` or
`±hh:mm` offset, with calendar range checks. -/
def parseRFC3339 (s : String) : Option GoTime :=
  match s.toList with
  | y1 :: y2 :: y3 :: y4 :: '-' :: m1 :: m2 :: '-' :: d1 :: d2 :: 'T' ::
      h1 :: h2 :: ':' :: n1 :: n2 :: ':' :: s1 :: s2 :: rest =>
    if [y1, y2, y3, y4, m1, m2, d1, d2, h1, h2, n1, n2, s1, s2].all isJsonDigit then
      let year := digitsToNat [y1, y2, y3, y4]
      let month := twoDigits m1 m2
      let day := twoDigits d1 d2
      let hour := twoDigits h1 h2
      let minute := twoDigits n1 n2
      let second := twoDigits s1 s2
      if 1 ≤ month ∧ month ≤ 12 ∧ 1 ≤ day ∧ day ≤ daysInMonth year month ∧
          hour ≤ 23 ∧ minute ≤ 59 ∧ second ≤ 59 then
        match parseFracSeconds rest with
        | none => none
        | some rest2 =>
          match parseOffsetPart rest2 with
          | none => none
          | some off => some ⟨year, month, day, hour, minute, second, off⟩
      else none
    else none
  | _ => none

/-- ASCII lower-casing of a JSON object key, for `encoding/json`'s
case-insensitive matching of keys against the (ASCII) struct tags. -/
def lowerKey (s : String) : String :=
  String.mk (s.toList.map fun c =>
    if 65 ≤ c.toNat ∧ c.toNat ≤ 90 then Char.ofNat (c.toNat + 32) else c)

/-- Decode a JSON value into a Go `string` field: `null` is a no-op,
a string sets the field, anything else is an unmarshal type error. -/
def decodeStringField (j : Json) (cur : String) : Except String String :=
  match j with
  | .null => .ok cur
  | .str s => .ok s
  | _ => .error "cannot unmarshal value into Go string field"

/-- Decode a JSON value into a Go `int` field. -/
def decodeIntField (j : Json) (cur : Int) : Except String Int :=
  match j with
  | .null => .ok cur
  | .num lit =>
    match parseIntLit lit with
    | some n => .ok n
    | none => .error "cannot unmarshal number into Go int field"
  | _ => .error "cannot unmarshal value into Go int field"

/-- Decode a JSON value into a Go `*int` field: `null` sets the pointer to
nil, a plain integer allocates and sets it. -/
def decodeIntPtrField (j : Json) (_cur : Option Int) : Except String (Option Int) :=
  match j with
  | .null => .ok none
  | .num lit =>
    match parseIntLit lit with
    | some n => .ok (some n)
    | none => .error "cannot unmarshal number into Go int field"
  | _ => .error "cannot unmarshal value into Go int field"

/-- Decode a JSON value into a `time.Time` field via its `UnmarshalJSON`:
`null` is a no-op, a string must parse as RFC3339, anything else is
rejected. -/
def decodeTimeField (j : Json) (cur : Option GoTime) : Except String (Option GoTime) :=
  match j with
  | .null => .ok cur
  | .str s =>
    match parseRFC3339 s with
    | some t => .ok (some t)
    | none => .error "parsing time as RFC3339 failed"
  | _ => .error "Time.UnmarshalJSON: input is not a JSON string"

/-- Fold the members of a JSON object into the nested `source` struct;
`encoding/json` matches keys to the `name` / `url` tags case-insensitively,
ignores unknown keys, and lets later duplicates overwrite. -/
def foldSourceFields (s : ArticleSource) : List (String × Json) → Except String ArticleSource
  | [] => .ok s
  | (k, v) :: rest =>
    let lk := lowerKey k
    if lk = "name" then
      match decodeStringField v s.name with
      | .error e => .error e
      | .ok nv => foldSourceFields ⟨nv, s.url⟩ rest
    else if lk = "url" then
      match decodeStringField v s.url with
      | .error e => .error e
      | .ok uv => foldSourceFields ⟨s.name, uv⟩ rest
    else foldSourceFields s rest

/-- Decode a JSON value into the nested `source` struct field. -/
def decodeSourceField (j : Json) (cur : ArticleSource) : Except String ArticleSource :=
  match j with
  | .null => .ok cur
  | .obj fields => foldSourceFields cur fields
  | _ => .error "cannot unmarshal value into Go struct field"

/-- Fold the members of a JSON object into an `Article`, matching the
struct's json tags case-insensitively and ignoring unknown keys. -/
def foldArticleFields (a : Article) : List (String × Json) → Except String Article
  | [] => .ok a
  | (k, v) :: rest =>
    let lk := lowerKey k
    if lk = "title" then
      match decodeStringField v a.title with
      | .error e => .error e
      | .ok w => foldArticleFields { a with title := w } rest
    else if lk = "description" then
      match decodeStringField v a.description with
      | .error e => .error e
      | .ok w => foldArticleFields { a with description := w } rest
    else if lk = "category" then
      match decodeStringField v a.category with
      | .error e => .error e
      | .ok w => foldArticleFields { a with category := w } rest
    else if lk = "content" then
      match decodeStringField v a.content with
      | .error e => .error e
      | .ok w => foldArticleFields { a with content := w } rest
    else if lk = "country" then
      match decodeStringField v a.country with
      | .error e => .error e
      | .ok w => foldArticleFields { a with country := w } rest
    else if lk = "region" then
      match decodeStringField v a.region with
      | .error e => .error e
      | .ok w => foldArticleFields { a with region := w } rest
    else if lk = "lang" then
      match decodeStringField v a.lang with
      | .error e => .error e
      | .ok w => foldArticleFields { a with lang := w } rest
    else if lk = "sentiment" then
      match decodeStringField v a.sentiment with
      | .error e => .error e
      | .ok w => foldArticleFields { a with sentiment := w } rest
    else if lk = "url" then
      match decodeStringField v a.url with
      | .error e => .error e
      | .ok w => foldArticleFields { a with url := w } rest
    else if lk = "image" then
      match decodeStringField v a.image with
      | .error e => .error e
      | .ok w => foldArticleFields { a with image := w } rest
    else if lk = "publishedat" then
      match decodeTimeField v a.publishedAt with
      | .error e => .error e
      | .ok w => foldArticleFields { a with publishedAt := w } rest
    else if lk = "source" then
      match decodeSourceField v a.source with
      | .error e => .error e
      | .ok w => foldArticleFields { a with source := w } rest
    else foldArticleFields a rest

/-- Decode one array element into an `Article` (each element of the new
slice starts at the zero value). -/
def decodeArticle (j : Json) : Except String Article :=
  match j with
  | .null => .ok Article.zero
  | .obj fields => foldArticleFields Article.zero fields
  | _ => .error "cannot unmarshal value into Article"

/-- Decode all elements of the `articles` array, stopping at the first
element error (the caller discards the partial result on error). -/
def decodeArticleList : List Json → Except String (List Article)
  | [] => .ok []
  | j :: rest =>
    match decodeArticle j with
    | .error e => .error e
    | .ok a =>
      match decodeArticleList rest with
      | .error e => .error e
      | .ok tail => .ok (a :: tail)

/-- Decode a JSON value into the `[]Article` field: `null` sets the slice
to nil, an array decodes elementwise. -/
def decodeArticlesField (j : Json) (_cur : List Article) : Except String (List Article) :=
  match j with
  | .null => .ok []
  | .arr xs => decodeArticleList xs
  | _ => .error "cannot unmarshal value into Go slice field"

/-- Fold the members of the top-level JSON object into a `SearchResponse`,
matching the struct's json tags case-insensitively and ignoring unknown
keys. -/
def foldResponseFields (r : SearchResponse) :
    List (String × Json) → Except String SearchResponse
  | [] => .ok r
  | (k, v) :: rest =>
    let lk := lowerKey k
    if lk = "totalarticles" then
      match decodeIntField v r.totalArticles with
      | .error e => .error e
      | .ok w => foldResponseFields { r with totalArticles := w } rest
    else if lk = "currentpage" then
      match decodeIntField v r.currentPage with
      | .error e => .error e
      | .ok w => foldResponseFields { r with currentPage := w } rest
    else if lk = "nextpage" then
      match decodeIntPtrField v r.nextPage with
      | .error e => .error e
      | .ok w => foldResponseFields { r with nextPage := w } rest
    else if lk = "articles" then
      match decodeArticlesField v r.articles with
      | .error e => .error e
      | .ok w => foldResponseFields { r with articles := w } rest
    else foldResponseFields r rest

/-- Runs `json.NewDecoder(resp.Body).Decode(&searchResponse)` on a body string:
parse the first JSON value and decode it into the zero `SearchResponse`
(`null` leaves the zero value, any non-object scalar is a type error). -/
def decodeSearchResponse (body : String) : Except String SearchResponse :=
  match parseJson body with
  | none => .error "invalid JSON value"
  | some .null => .ok SearchResponse.zero
  | some (.obj fields) => foldResponseFields SearchResponse.zero fields
  | some _ => .error "cannot unmarshal value into SearchResponse"

/-- The URL built at client.go line 194:
`fmt.Sprintf("%s/v1/search?%s", c.baseURL, params.Encode())`. -/
def searchURL (c : Client) (ps : List (String × String)) : String :=
  c.baseURL ++ "/v1/search?" ++ encodeQuery ps

/-- The URL built at client.go line 312:
`fmt.Sprintf("%s/v1/headlines?%s", c.baseURL, params.Encode())`. -/
def headlinesURL (c : Client) (ps : List (String × String)) : String :=
  c.baseURL ++ "/v1/headlines?" ++ encodeQuery ps

/-- Behaviour of `Client.Search` (client.go lines 107-222).  The HTTP transport is the
oracle `net`: `net url` is the outcome of `c.httpClient.Do` on the GET
request for `url` (`http.NewRequest` cannot fail on the URLs the SDK
builds from a well-formed base URL, so its error path is not modelled).
A `resp.body` of `none` models a body whose read fails: `io.ReadAll`
then yields an empty byte slice and the JSON decoder yields a read error. -/
def Client.Search (c : Client) (options : Option SearchOptions)
    (net : String → HTTPOutcome) : Except SDKError SearchResponse :=
  match searchParams c.apiKey options with
  | .error e => .error e
  | .ok params =>
    match net (searchURL c params) with
    | .failure msg => .error (.transportError msg)
    | .response resp =>
      if resp.statusCode ≠ 200 then
        .error (.apiError resp.statusCode (resp.body.getD ""))
      else
        match resp.body with
        | none => .error (.parseError "read failure")
        | some b =>
          match decodeSearchResponse b with
          | .error cause => .error (.parseError cause)
          | .ok r => .ok r

/-- Behaviour of `Client.Headlines` (client.go lines 225-340), a verbatim duplicate of
`Client.Search` up to the `/v1/headlines` path. -/
def Client.Headlines (c : Client) (options : Option SearchOptions)
    (net : String → HTTPOutcome) : Except SDKError SearchResponse :=
  match headlinesParams c.apiKey options with
  | .error e => .error e
  | .ok params =>
    match net (headlinesURL c params) with
    | .failure msg => .error (.transportError msg)
    | .response resp =>
      if resp.statusCode ≠ 200 then
        .error (.apiError resp.statusCode (resp.body.getD ""))
      else
        match resp.body with
        | none => .error (.parseError "read failure")
        | some b =>
          match decodeSearchResponse b with
          | .error cause => .error (.parseError cause)
          | .ok r => .ok r

/-- Modelled from the spec: the URL shape `<base>/v1/<endpoint>?<encoded
params>` that §4.2 / §6 prescribe for both endpoints, used to compare the
two executors' URLs. -/
def specURL (c : Client) (endpointSeg : String) (ps : List (String × String)) : String :=
  c.baseURL ++ ("/v1/" ++ endpointSeg ++ "?") ++ encodeQuery ps

/-- The query value the date type switch resolves a start/end date to,
when it does not abort: absent, the string itself, or the RFC3339
rendering of the timestamp. -/
def dateQueryValue : Option DateInput → Option String
  | none => none
  | some (.str s) => some s
  | some (.time t) => some (formatRFC3339 t)
  | some .other => none

/-- First-defined choice between two optional values, the shape that
`lookupParam` takes on an appended parameter list. -/
def firstSome (a b : Option String) : Option String :=
  match a with
  | some v => some v
  | none => b

/-- The HTTP 200 body of the spec's success scenario (§8). -/
def exampleBody : String :=
  "\x7b\"totalArticles\":2,\"currentPage\":1,\"nextPage\":null,\"articles\":[\x7b\"title\":\"A\",\"source\":\x7b\"name\":\"S\"\x7d\x7d]\x7d"

/-- The decoded response the spec expects for `exampleBody`: total 2,
current page 1, no next page, one article titled "A" from source "S",
every other field at its zero value. -/
def exampleResponse : SearchResponse :=
  ⟨2, 1, none, [⟨"A", "", "", "", "", "", "", "", "", "", none, ⟨"S", ""⟩⟩]⟩

/-! ### Helper lemmas -/

theorem lookupParam_nil (k : String) : lookupParam [] k = none := rfl

theorem lookupParam_cons (k' v : String) (ps : List (String × String)) (k : String) :
    lookupParam ((k', v) :: ps) k = if k' = k then some v else lookupParam ps k := rfl

theorem firstSome_none (b : Option String) : firstSome none b = b := rfl

theorem firstSome_some (v : String) (b : Option String) : firstSome (some v) b = some v := rfl

theorem firstSome_none_right (a : Option String) : firstSome a none = a := by
  cases a <;> rfl

theorem lookupParam_append (xs ys : List (String × String)) (k : String) :
    lookupParam (xs ++ ys) k = firstSome (lookupParam xs k) (lookupParam ys k) := by
  induction xs with
  | nil => rfl
  | cons p rest ih =>
    obtain ⟨k', v⟩ := p
    by_cases h : k' = k <;> simp [lookupParam, h, ih, firstSome]

theorem lookupParam_strParam (q v k : String) :
    lookupParam (strParam q v) k = if q = k ∧ v ≠ "" then some v else none := by
  by_cases hv : v = ""
  · simp [strParam, hv, lookupParam]
  · by_cases hq : q = k <;> simp [strParam, hv, hq, lookupParam]

theorem lookupParam_listParam (q k : String) (xs : List String) :
    lookupParam (listParam q xs) k =
      if q = k ∧ xs.length > 0 then some (String.intercalate "," xs) else none := by
  by_cases hx : xs.length > 0
  · by_cases hq : q = k <;> simp [listParam, hx, hq, lookupParam]
  · simp [listParam, hx, lookupParam]

theorem lookupParam_intParam (q k : String) (n : Int) :
    lookupParam (intParam q n) k = if q = k ∧ n > 0 then some (toString n) else none := by
  by_cases hn : n > 0
  · by_cases hq : q = k <;> simp [intParam, hn, hq, lookupParam]
  · simp [intParam, hn, lookupParam]

theorem lookupParam_contentParam (c : Option Bool) (k : String) :
    lookupParam (contentParam c) k =
      if "content" = k then c.map (fun b => if b then "true" else "false") else none := by
  by_cases hk : "content" = k <;>
    cases c with
    | none => simp [contentParam, hk, lookupParam]
    | some b => cases b <;> simp [contentParam, hk, lookupParam]

theorem lookupParam_of_dateParam {dk msg : String} {v : Option DateInput}
    {l : List (String × String)} (h : dateParam dk v msg = .ok l) (k : String) :
    lookupParam l k = if dk = k then dateQueryValue v else none := by
  cases v with
  | none =>
    simp [dateParam] at h
    subst h
    simp [lookupParam, dateQueryValue]
  | some di =>
    cases di with
    | str s =>
      simp [dateParam] at h
      subst h
      by_cases hk : dk = k <;> simp [lookupParam, dateQueryValue, hk]
    | time t =>
      simp [dateParam] at h
      subst h
      by_cases hk : dk = k <;> simp [lookupParam, dateQueryValue, hk]
    | other => simp [dateParam] at h

theorem searchParams_ok_shape (key : String) (o : SearchOptions)
    (ps : List (String × String)) (h : searchParams key (some o) = .ok ps) :
    ∃ sd ed,
      dateParam "startDate" o.startDate "startDate must be string or time.Time" = .ok sd ∧
      dateParam "endDate" o.endDate "endDate must be string or time.Time" = .ok ed ∧
      ps = [("apikey", key)] ++ strParam "q" o.query ++ sd ++ ed ++
        contentParam o.content ++ listParam "lang" o.lang ++
        listParam "country" o.country ++ listParam "region" o.region ++
        listParam "category" o.category ++ listParam "attributes" o.attributes ++
        listParam "publisher" o.publisher ++ intParam "max" o.max ++
        intParam "page" o.page ++ strParam "sortby" o.sortBy ++
        strParam "format" o.format := by
  simp only [searchParams] at h
  cases hsd : dateParam "startDate" o.startDate "startDate must be string or time.Time" with
  | error e => rw [hsd] at h; exact absurd h (by simp)
  | ok sd =>
    rw [hsd] at h
    cases hed : dateParam "endDate" o.endDate "endDate must be string or time.Time" with
    | error e => rw [hed] at h; exact absurd h (by simp)
    | ok ed =>
      rw [hed] at h
      simp only [Except.ok.injEq] at h
      exact ⟨sd, ed, rfl, rfl, h.symm⟩

theorem searchParams_lookup (key : String) (o : SearchOptions)
    (ps : List (String × String)) (hps : searchParams key (some o) = .ok ps) :
    lookupParam ps "q" = (if o.query ≠ "" then some o.query else none) ∧
    lookupParam ps "startDate" = dateQueryValue o.startDate ∧
    lookupParam ps "endDate" = dateQueryValue o.endDate ∧
    lookupParam ps "content" = o.content.map (fun b => if b then "true" else "false") ∧
    lookupParam ps "lang" =
      (if o.lang.length > 0 then some (String.intercalate "," o.lang) else none) ∧
    lookupParam ps "country" =
      (if o.country.length > 0 then some (String.intercalate "," o.country) else none) ∧
    lookupParam ps "region" =
      (if o.region.length > 0 then some (String.intercalate "," o.region) else none) ∧
    lookupParam ps "category" =
      (if o.category.length > 0 then some (String.intercalate "," o.category) else none) ∧
    lookupParam ps "attributes" =
      (if o.attributes.length > 0 then some (String.intercalate "," o.attributes) else none) ∧
    lookupParam ps "publisher" =
      (if o.publisher.length > 0 then some (String.intercalate "," o.publisher) else none) ∧
    lookupParam ps "max" = (if o.max > 0 then some (toString o.max) else none) ∧
    lookupParam ps "page" = (if o.page > 0 then some (toString o.page) else none) ∧
    lookupParam ps "sortby" = (if o.sortBy ≠ "" then some o.sortBy else none) ∧
    lookupParam ps "format" = (if o.format ≠ "" then some o.format else none) := by
  obtain ⟨sd, ed, hd1, hd2, rfl⟩ := searchParams_ok_shape key o ps hps
  refine ⟨?_, ?_, ?_, ?_, ?_, ?_, ?_, ?_, ?_, ?_, ?_, ?_, ?_, ?_⟩ <;>
    simp [lookupParam_append, lookupParam_cons, lookupParam_nil,
      lookupParam_strParam, lookupParam_listParam, lookupParam_intParam,
      lookupParam_contentParam, lookupParam_of_dateParam hd1,
      lookupParam_of_dateParam hd2, firstSome_none, firstSome_some,
      firstSome_none_right, List.cons_append, List.nil_append]

theorem searchParams_startDate_other (key : String) (o : SearchOptions)
    (h : o.startDate = some DateInput.other) :
    searchParams key (some o) =
      .error (.optionError "startDate must be string or time.Time") := by
  simp [searchParams, dateParam, h]

theorem searchParams_endDate_other (key : String) (o : SearchOptions)
    (h : o.endDate = some DateInput.other) :
    ∃ m, searchParams key (some o) = .error (.optionError m) := by
  cases hsd : o.startDate with
  | none =>
    exact ⟨"endDate must be string or time.Time", by simp [searchParams, dateParam, h, hsd]⟩
  | some di =>
    cases di with
    | str s =>
      exact ⟨"endDate must be string or time.Time", by simp [searchParams, dateParam, h, hsd]⟩
    | time t =>
      exact ⟨"endDate must be string or time.Time", by simp [searchParams, dateParam, h, hsd]⟩
    | other =>
      exact ⟨"startDate must be string or time.Time", by simp [searchParams, dateParam, h, hsd]⟩

theorem Search_params_error (c : Client) (o : Option SearchOptions)
    (net : String → HTTPOutcome) (e : SDKError)
    (h : searchParams c.apiKey o = .error e) :
    Client.Search c o net = .error e := by
  simp [Client.Search, h]

theorem Headlines_params_error (c : Client) (o : Option SearchOptions)
    (net : String → HTTPOutcome) (e : SDKError)
    (h : headlinesParams c.apiKey o = .error e) :
    Client.Headlines c o net = .error e := by
  simp [Client.Headlines, h]

/-! ### Claims -/

/-- Claim C2: for every client and options value, `Search` and `Headlines`
build exactly the same encoded query parameters — the two encoding
functions are equal as functions of the API key and options — and the
request URLs both have the shape `<base>/v1/<endpoint>?<encoded query>`,
differing only in the endpoint segment, `search` versus `headlines`. -/
theorem claim_C2 :
    searchParams = headlinesParams ∧
    ∀ (c : Client) (ps : List (String × String)),
      searchURL c ps = specURL c "search" ps ∧
      headlinesURL c ps = specURL c "headlines" ps :=
  ⟨rfl, fun _ _ => ⟨rfl, rfl⟩⟩

/-- Claim C3: when every list field is empty and every scalar field is at
its zero value, the encoded query of both endpoints is exactly the single
API-key parameter. -/
theorem claim_C3 (key : String) (o : SearchOptions)
    (hq : o.query = "") (hsd : o.startDate = none) (hed : o.endDate = none)
    (hc : o.content = none) (hl : o.lang = []) (hco : o.country = [])
    (hr : o.region = []) (hca : o.category = []) (hm : o.max = 0)
    (ha : o.attributes = []) (hp : o.page = 0) (hs : o.sortBy = "")
    (hpu : o.publisher = []) (hf : o.format = "") :
    searchParams key (some o) = .ok [("apikey", key)] ∧
    headlinesParams key (some o) = .ok [("apikey", key)] := by
  cases o
  simp_all [searchParams, headlinesParams, dateParam, strParam, listParam,
    intParam, contentParam]

/-- Witness for C3 at the all-zero options value. -/
theorem claim_C3_witness :
    searchParams "K" (some SearchOptions.zero) = .ok [("apikey", "K")] ∧
    headlinesParams "K" (some SearchOptions.zero) = .ok [("apikey", "K")] :=
  claim_C3 "K" SearchOptions.zero rfl rfl rfl rfl rfl rfl rfl rfl rfl rfl rfl rfl rfl rfl

/-- Claim C10: a nil options pointer is handled safely (the embedding is
total on `none`): the query is exactly the API-key parameter, and both
calls behave identically to a call with the all-zero options value. -/
theorem claim_C10 (key : String) (c : Client) (net : String → HTTPOutcome) :
    searchParams key none = .ok [("apikey", key)] ∧
    headlinesParams key none = .ok [("apikey", key)] ∧
    searchParams key (some SearchOptions.zero) = .ok [("apikey", key)] ∧
    Client.Search c none net = Client.Search c (some SearchOptions.zero) net ∧
    Client.Headlines c none net = Client.Headlines c (some SearchOptions.zero) net :=
  ⟨rfl, rfl, rfl, rfl, rfl⟩

/-- Claim C1: a string start/end date passes into the encoded query
unchanged; a structured timestamp is formatted as RFC3339; any other
dynamic type makes `Search` and `Headlines` return the caller-misuse
error for every network oracle — so no network call is consulted — and no
result is returned. -/
theorem claim_C1 (c : Client) (key : String) (o : SearchOptions) :
    (∀ s ps, o.startDate = some (DateInput.str s) →
      searchParams key (some o) = .ok ps → lookupParam ps "startDate" = some s) ∧
    (∀ t ps, o.startDate = some (DateInput.time t) →
      searchParams key (some o) = .ok ps →
      lookupParam ps "startDate" = some (formatRFC3339 t)) ∧
    (∀ s ps, o.endDate = some (DateInput.str s) →
      searchParams key (some o) = .ok ps → lookupParam ps "endDate" = some s) ∧
    (∀ t ps, o.endDate = some (DateInput.time t) →
      searchParams key (some o) = .ok ps →
      lookupParam ps "endDate" = some (formatRFC3339 t)) ∧
    (o.startDate = some DateInput.other → ∀ net : String → HTTPOutcome,
      Client.Search c (some o) net =
        .error (.optionError "startDate must be string or time.Time") ∧
      Client.Headlines c (some o) net =
        .error (.optionError "startDate must be string or time.Time")) ∧
    (o.endDate = some DateInput.other → ∀ net : String → HTTPOutcome,
      (∃ m, Client.Search c (some o) net = .error (.optionError m)) ∧
      (∃ m, Client.Headlines c (some o) net = .error (.optionError m))) := by
  refine ⟨?_, ?_, ?_, ?_, ?_, ?_⟩
  · intro s ps hd hps
    have h := (searchParams_lookup key o ps hps).2.1
    rw [hd] at h
    simpa [dateQueryValue] using h
  · intro t ps hd hps
    have h := (searchParams_lookup key o ps hps).2.1
    rw [hd] at h
    simpa [dateQueryValue] using h
  · intro s ps hd hps
    have h := (searchParams_lookup key o ps hps).2.2.1
    rw [hd] at h
    simpa [dateQueryValue] using h
  · intro t ps hd hps
    have h := (searchParams_lookup key o ps hps).2.2.1
    rw [hd] at h
    simpa [dateQueryValue] using h
  · intro hd net
    have hs := searchParams_startDate_other c.apiKey o hd
    exact ⟨Search_params_error c (some o) net _ hs,
      Headlines_params_error c (some o) net _ hs⟩
  · intro hd net
    obtain ⟨m, hm⟩ := searchParams_endDate_other c.apiKey o hd
    exact ⟨⟨m, Search_params_error c (some o) net _ hm⟩,
      ⟨m, Headlines_params_error c (some o) net _ hm⟩⟩

/-- Witness for C1: a pass-through date string, an RFC3339-formatted
timestamp, and the two misuse errors at concrete inputs. -/
theorem claim_C1_witness :
    lookupParam [("apikey", "K"), ("startDate", "2024-01-01")] "startDate"
      = some "2024-01-01" ∧
    lookupParam [("apikey", "K"), ("startDate", "2024-03-07T09:05:30Z")] "startDate"
      = some (formatRFC3339 ⟨2024, 3, 7, 9, 5, 30, 0⟩) ∧
    lookupParam [("apikey", "K"), ("endDate", "2024-01-02")] "endDate"
      = some "2024-01-02" ∧
    lookupParam [("apikey", "K"), ("endDate", "2024-03-07T09:05:30Z")] "endDate"
      = some (formatRFC3339 ⟨2024, 3, 7, 9, 5, 30, 0⟩) ∧
    Client.Search ⟨"K", "https://api.allnewsapi.com"⟩
        (some { SearchOptions.zero with startDate := some DateInput.other })
        (fun _ => HTTPOutcome.response ⟨200, some "null"⟩)
      = .error (.optionError "startDate must be string or time.Time") ∧
    ∃ m, Client.Search ⟨"K", "https://api.allnewsapi.com"⟩
        (some { SearchOptions.zero with endDate := some DateInput.other })
        (fun _ => HTTPOutcome.response ⟨200, some "null"⟩)
      = .error (.optionError m) :=
  ⟨(claim_C1 ⟨"K", "https://api.allnewsapi.com"⟩ "K"
      { SearchOptions.zero with startDate := some (DateInput.str "2024-01-01") }).1
      "2024-01-01" [("apikey", "K"), ("startDate", "2024-01-01")] rfl rfl,
   (claim_C1 ⟨"K", "https://api.allnewsapi.com"⟩ "K"
      { SearchOptions.zero with startDate := some (DateInput.time ⟨2024, 3, 7, 9, 5, 30, 0⟩) }).2.1
      ⟨2024, 3, 7, 9, 5, 30, 0⟩
      [("apikey", "K"), ("startDate", "2024-03-07T09:05:30Z")] rfl rfl,
   (claim_C1 ⟨"K", "https://api.allnewsapi.com"⟩ "K"
      { SearchOptions.zero with endDate := some (DateInput.str "2024-01-02") }).2.2.1
      "2024-01-02" [("apikey", "K"), ("endDate", "2024-01-02")] rfl rfl,
   (claim_C1 ⟨"K", "https://api.allnewsapi.com"⟩ "K"
      { SearchOptions.zero with endDate := some (DateInput.time ⟨2024, 3, 7, 9, 5, 30, 0⟩) }).2.2.2.1
      ⟨2024, 3, 7, 9, 5, 30, 0⟩
      [("apikey", "K"), ("endDate", "2024-03-07T09:05:30Z")] rfl rfl,
   ((claim_C1 ⟨"K", "https://api.allnewsapi.com"⟩ "K"
      { SearchOptions.zero with startDate := some DateInput.other }).2.2.2.2.1
      rfl (fun _ => HTTPOutcome.response ⟨200, some "null"⟩)).1,
   ((claim_C1 ⟨"K", "https://api.allnewsapi.com"⟩ "K"
      { SearchOptions.zero with endDate := some DateInput.other }).2.2.2.2.2
      rfl (fun _ => HTTPOutcome.response ⟨200, some "null"⟩)).1⟩

/-- Claim C4: each list-valued filter is omitted when empty, and otherwise
its parameter is the elements joined by a single comma in caller order,
with no whitespace changes, deduplication or validation (the statement
holds for arbitrary element lists). -/
theorem claim_C4 (key : String) (o : SearchOptions) (ps : List (String × String))
    (hps : searchParams key (some o) = .ok ps) :
    ((o.lang = [] → lookupParam ps "lang" = none) ∧
      (o.lang ≠ [] → lookupParam ps "lang" = some (String.intercalate "," o.lang))) ∧
    ((o.country = [] → lookupParam ps "country" = none) ∧
      (o.country ≠ [] → lookupParam ps "country" = some (String.intercalate "," o.country))) ∧
    ((o.region = [] → lookupParam ps "region" = none) ∧
      (o.region ≠ [] → lookupParam ps "region" = some (String.intercalate "," o.region))) ∧
    ((o.category = [] → lookupParam ps "category" = none) ∧
      (o.category ≠ [] → lookupParam ps "category" = some (String.intercalate "," o.category))) ∧
    ((o.attributes = [] → lookupParam ps "attributes" = none) ∧
      (o.attributes ≠ [] →
        lookupParam ps "attributes" = some (String.intercalate "," o.attributes))) ∧
    ((o.publisher = [] → lookupParam ps "publisher" = none) ∧
      (o.publisher ≠ [] →
        lookupParam ps "publisher" = some (String.intercalate "," o.publisher))) := by
  obtain ⟨-, -, -, -, h5, h6, h7, h8, h9, h10, -, -, -, -⟩ :=
    searchParams_lookup key o ps hps
  refine ⟨⟨fun hf => ?_, fun hf => ?_⟩, ⟨fun hf => ?_, fun hf => ?_⟩,
    ⟨fun hf => ?_, fun hf => ?_⟩, ⟨fun hf => ?_, fun hf => ?_⟩,
    ⟨fun hf => ?_, fun hf => ?_⟩, ⟨fun hf => ?_, fun hf => ?_⟩⟩
  · rw [h5, if_neg (by simp [hf])]
  · rw [h5, if_pos (List.length_pos.mpr hf)]
  · rw [h6, if_neg (by simp [hf])]
  · rw [h6, if_pos (List.length_pos.mpr hf)]
  · rw [h7, if_neg (by simp [hf])]
  · rw [h7, if_pos (List.length_pos.mpr hf)]
  · rw [h8, if_neg (by simp [hf])]
  · rw [h8, if_pos (List.length_pos.mpr hf)]
  · rw [h9, if_neg (by simp [hf])]
  · rw [h9, if_pos (List.length_pos.mpr hf)]
  · rw [h10, if_neg (by simp [hf])]
  · rw [h10, if_pos (List.length_pos.mpr hf)]

/-- Witness for C4: a two-element language list joins to `en,fr` in
order, and an empty region list yields no parameter. -/
theorem claim_C4_witness :
    lookupParam [("apikey", "K"), ("lang", "en,fr"), ("country", "us")] "lang"
      = some "en,fr" ∧
    lookupParam [("apikey", "K"), ("lang", "en,fr"), ("country", "us")] "region"
      = none :=
  ⟨(claim_C4 "K" { SearchOptions.zero with lang := ["en", "fr"], country := ["us"] }
      [("apikey", "K"), ("lang", "en,fr"), ("country", "us")] rfl).1.2 (by simp),
   (claim_C4 "K" { SearchOptions.zero with lang := ["en", "fr"], country := ["us"] }
      [("apikey", "K"), ("lang", "en,fr"), ("country", "us")] rfl).2.2.1.1 rfl⟩

/-- Claim C5: the include-content flag is three-state — unset yields no
`content` parameter, explicit true yields `content=true`, explicit false
yields `content=false`, so unset is distinguishable from false. -/
theorem claim_C5 (key : String) (o : SearchOptions) (ps : List (String × String))
    (hps : searchParams key (some o) = .ok ps) :
    (o.content = none → lookupParam ps "content" = none) ∧
    (o.content = some true → lookupParam ps "content" = some "true") ∧
    (o.content = some false → lookupParam ps "content" = some "false") := by
  have h := (searchParams_lookup key o ps hps).2.2.2.1
  refine ⟨fun hc => ?_, fun hc => ?_, fun hc => ?_⟩ <;> rw [hc] at h <;> simpa using h

/-- Witness for C5 at the three flag states. -/
theorem claim_C5_witness :
    lookupParam [("apikey", "K")] "content" = none ∧
    lookupParam [("apikey", "K"), ("content", "true")] "content" = some "true" ∧
    lookupParam [("apikey", "K"), ("content", "false")] "content" = some "false" :=
  ⟨(claim_C5 "K" SearchOptions.zero [("apikey", "K")] rfl).1 rfl,
   (claim_C5 "K" { SearchOptions.zero with content := some true }
      [("apikey", "K"), ("content", "true")] rfl).2.1 rfl,
   (claim_C5 "K" { SearchOptions.zero with content := some false }
      [("apikey", "K"), ("content", "false")] rfl).2.2 rfl⟩

/-- Claim C6: `max` and `page` appear in the query exactly when strictly
positive; zero or negative values omit the parameter, and a positive value
is rendered in decimal. -/
theorem claim_C6 (key : String) (o : SearchOptions) (ps : List (String × String))
    (hps : searchParams key (some o) = .ok ps) :
    (o.max ≤ 0 → lookupParam ps "max" = none) ∧
    (0 < o.max → lookupParam ps "max" = some (toString o.max)) ∧
    (o.page ≤ 0 → lookupParam ps "page" = none) ∧
    (0 < o.page → lookupParam ps "page" = some (toString o.page)) := by
  obtain ⟨-, -, -, -, -, -, -, -, -, -, hmax, hpage, -, -⟩ :=
    searchParams_lookup key o ps hps
  refine ⟨fun h => ?_, fun h => ?_, fun h => ?_, fun h => ?_⟩
  · rw [hmax, if_neg (by omega)]
  · rw [hmax, if_pos h]
  · rw [hpage, if_neg (by omega)]
  · rw [hpage, if_pos h]

/-- Witness for C6: `Max 5` yields `max=5`; zero `Max` and `Page` (and a
negative `Page`) yield no parameter. -/
theorem claim_C6_witness :
    lookupParam [("apikey", "K"), ("max", "5")] "max" = some "5" ∧
    lookupParam [("apikey", "K"), ("max", "5")] "page" = none ∧
    lookupParam [("apikey", "K")] "max" = none ∧
    lookupParam [("apikey", "K")] "page" = none :=
  ⟨(claim_C6 "K" { SearchOptions.zero with max := 5 }
      [("apikey", "K"), ("max", "5")] rfl).2.1 (by decide),
   (claim_C6 "K" { SearchOptions.zero with max := 5 }
      [("apikey", "K"), ("max", "5")] rfl).2.2.1 (by decide),
   (claim_C6 "K" { SearchOptions.zero with page := -3 }
      [("apikey", "K")] rfl).1 (by decide),
   (claim_C6 "K" SearchOptions.zero [("apikey", "K")] rfl).2.2.1 (by decide)⟩

/-- Claim C7: any non-200 response makes both calls fail with an API error
carrying the status code and the raw body text — an unreadable body is
tolerated as an empty body — and no `SearchResponse` is returned. -/
theorem claim_C7 (c : Client) (o : Option SearchOptions) (net : String → HTTPOutcome)
    (resp : HTTPResponse) (ps : List (String × String))
    (hps : searchParams c.apiKey o = .ok ps)
    (hnet : ∀ u, net u = .response resp)
    (hstatus : resp.statusCode ≠ 200) :
    Client.Search c o net = .error (.apiError resp.statusCode (resp.body.getD "")) ∧
    Client.Headlines c o net = .error (.apiError resp.statusCode (resp.body.getD "")) := by
  have hps' : headlinesParams c.apiKey o = .ok ps := hps
  constructor
  · simp [Client.Search, hps, hnet, hstatus]
  · simp [Client.Headlines, hps', hnet, hstatus]

/-- Witness for C7: a mocked 429 with body `rate limited` fails with that
status and body, and a 500 whose body read fails carries an empty body. -/
theorem claim_C7_witness :
    Client.Search ⟨"K", "https://api.allnewsapi.com"⟩ none
        (fun _ => HTTPOutcome.response ⟨429, some "rate limited"⟩)
      = .error (.apiError 429 "rate limited") ∧
    Client.Search ⟨"K", "https://api.allnewsapi.com"⟩ none
        (fun _ => HTTPOutcome.response ⟨500, none⟩)
      = .error (.apiError 500 "") :=
  ⟨(claim_C7 ⟨"K", "https://api.allnewsapi.com"⟩ none
      (fun _ => HTTPOutcome.response ⟨429, some "rate limited"⟩)
      ⟨429, some "rate limited"⟩ [("apikey", "K")] rfl (fun _ => rfl) (by decide)).1,
   (claim_C7 ⟨"K", "https://api.allnewsapi.com"⟩ none
      (fun _ => HTTPOutcome.response ⟨500, none⟩)
      ⟨500, none⟩ [("apikey", "K")] rfl (fun _ => rfl) (by decide)).1⟩

/-- Claim C8: a 200 response whose body does not decode as a
`SearchResponse` makes both calls fail with a parse error wrapping the
decoder's cause, and no partial result is returned. -/
theorem claim_C8 (c : Client) (o : Option SearchOptions) (net : String → HTTPOutcome)
    (resp : HTTPResponse) (ps : List (String × String)) (b m : String)
    (hps : searchParams c.apiKey o = .ok ps)
    (hnet : ∀ u, net u = .response resp)
    (hstatus : resp.statusCode = 200) (hbody : resp.body = some b)
    (hdec : decodeSearchResponse b = .error m) :
    Client.Search c o net = .error (.parseError m) ∧
    Client.Headlines c o net = .error (.parseError m) := by
  have hps' : headlinesParams c.apiKey o = .ok ps := hps
  constructor
  · simp [Client.Search, hps, hnet, hstatus, hbody, hdec]
  · simp [Client.Headlines, hps', hnet, hstatus, hbody, hdec]

/-- Witness for C8: truncated JSON on a 200 response yields a decode
error. -/
theorem claim_C8_witness :
    Client.Search ⟨"K", "https://api.allnewsapi.com"⟩ none
        (fun _ => HTTPOutcome.response ⟨200, some "\x7b\"totalArticles\":2,"⟩)
      = .error (.parseError "invalid JSON value") :=
  (claim_C8 ⟨"K", "https://api.allnewsapi.com"⟩ none
    (fun _ => HTTPOutcome.response ⟨200, some "\x7b\"totalArticles\":2,"⟩)
    ⟨200, some "\x7b\"totalArticles\":2,"⟩ [("apikey", "K")]
    "\x7b\"totalArticles\":2," "invalid JSON value"
    rfl (fun _ => rfl) rfl rfl rfl).1

/-- Claim C9: the spec's concrete 200 body decodes to a success result
with total 2, current page 1, no next page, and exactly one article titled
`A` whose nested source name is `S`; the client performs no further
validation of the field values. -/
theorem claim_C9 :
    Client.Search ⟨"K", "https://api.allnewsapi.com"⟩ none
        (fun _ => HTTPOutcome.response ⟨200, some exampleBody⟩) = .ok exampleResponse ∧
    Client.Headlines ⟨"K", "https://api.allnewsapi.com"⟩ none
        (fun _ => HTTPOutcome.response ⟨200, some exampleBody⟩) = .ok exampleResponse ∧
    exampleResponse.totalArticles = 2 ∧
    exampleResponse.currentPage = 1 ∧
    exampleResponse.nextPage = none ∧
    exampleResponse.articles.length = 1 ∧
    exampleResponse.articles.map Article.title = ["A"] ∧
    (exampleResponse.articles.map fun a => a.source.name) = ["S"] :=
  ⟨rfl, rfl, rfl, rfl, rfl, rfl, rfl, rfl⟩
